import Mathlib

/-!
Verification of the lvlog leveled-logging package (src/lvlog/log.go).

The package keeps four global variables: the gating threshold `level`
(a Go int), the `logFile` handle, and the standard-library logger state
(its output and flags).  We embed this state as the structure LogState
and every exported function as a pure state transformer.  File opening
is the one external effect; it is modelled by an oracle
`fs : String → Bool` telling whether os.OpenFile with O_RDWR on a path
succeeds (a failed open returns the nil handle, as in Go).  Message
rendering via the fmt package is modelled by sprint and sprintf over a
small value type.
-/

namespace Lvlog

/-- Severity LevelDebug, first of the Go const block (iota = 0). -/
def LevelDebug : Int := 0

/-- Severity LevelInfo (iota = 1). -/
def LevelInfo : Int := 1

/-- Severity LevelWarning (iota = 2). -/
def LevelWarning : Int := 2

/-- Severity LevelError (iota = 3). -/
def LevelError : Int := 3

/-- The constant table of per-severity message tags (the Go array
indexed by severity). -/
def levelPrefix (l : Int) : String :=
  if l = LevelDebug then "[DEBUG] "
  else if l = LevelInfo then "[INFO] "
  else if l = LevelWarning then "[WARNING] "
  else if l = LevelError then "[ERROR] "
  else ""

/-- A Go interface value handed to the variadic write functions; the
operands we model are strings and integers. -/
inductive GoVal
  | str (s : String)
  | int (n : Int)
deriving DecidableEq

/-- Default string conversion of one operand, as fmt renders it. -/
def sprintVal : GoVal → String
  | .str s => s
  | .int n => toString n

/-- Whether an operand is a string (fmt.Sprint omits the separating
space next to string operands). -/
def isStringVal : GoVal → Bool
  | .str _ => true
  | .int _ => false

/-- Modelled from Go fmt.Sprint: operands are concatenated, a space
being inserted between two adjacent operands only when neither is a
string. -/
def sprint : List GoVal → String
  | [] => ""
  | [v] => sprintVal v
  | v :: w :: rest =>
      sprintVal v ++ (if isStringVal v || isStringVal w then "" else " ")
        ++ sprint (w :: rest)

/-- Modelled from Go fmt.Sprintf, on the format string's characters: a
percent sign followed by a verb consumes one operand and renders it
with its default conversion, a doubled percent renders a literal
percent, a verb with no operand left keeps the literal text, and every
other character passes through. -/
def sprintfAux : List Char → List GoVal → List Char
  | [], _ => []
  | c :: rest, vs =>
      if c = '%' then
        match rest with
        | [] => ['%']
        | d :: rest2 =>
            if d = '%' then '%' :: sprintfAux rest2 vs
            else
              match vs with
              | [] => '%' :: d :: sprintfAux rest2 []
              | v :: vs2 => (sprintVal v).data ++ sprintfAux rest2 vs2
      else c :: sprintfAux rest vs

/-- Modelled from Go fmt.Sprintf on whole strings. -/
def sprintf (format : String) (vs : List GoVal) : String :=
  String.mk (sprintfAux format.data vs)

/-- The destination the underlying golog logger writes to: standard
error, a successfully opened file, or the nil handle that a failed
os.OpenFile call returns. -/
inductive Destination
  | stderr
  | opened (path : String)
  | nilHandle
deriving DecidableEq

/-- golog flag bit Ldate. -/
def Ldate : Nat := 1

/-- golog flag bit Ltime. -/
def Ltime : Nat := 2

/-- golog flag bit Lshortfile. -/
def Lshortfile : Nat := 16

/-- golog LstdFlags = Ldate | Ltime. -/
def LstdFlags : Nat := Ldate ||| Ltime

/-- The package-level mutable state: the threshold `level`, the
`logFile` variable, and the golog standard logger's output and flags,
which setFileName mutates through SetOutput and SetFlags. -/
structure LogState where
  level : Int
  logFile : Destination
  gologOutput : Destination
  gologFlags : Nat
deriving DecidableEq

/-- The state at process start when no init function has run: level is
LevelInfo, logFile is os.Stderr, and the golog default logger writes to
standard error with LstdFlags. -/
def initialState : LogState :=
  { level := LevelInfo, logFile := Destination.stderr,
    gologOutput := Destination.stderr, gologFlags := LstdFlags }

/-- Embeds setFileName: for a non-empty name, os.OpenFile(name, O_RDWR,
0666) assigns both logFile and the error, a failed open leaving the nil
handle in logFile; then SetOutput(logFile) and
SetFlags(LstdFlags | Lshortfile) run unconditionally, and the open
error (if any) is returned. -/
def setFileName (fs : String → Bool) (name : String) (st : LogState) :
    LogState × Option String :=
  let fileAndErr : Destination × Option String :=
    if 0 < name.length then
      if fs name then (Destination.opened name, none)
      else (Destination.nilHandle,
            some ("open " ++ name ++ ": no such file or directory"))
    else (st.logFile, none)
  ({ st with
      logFile := fileAndErr.1,
      gologOutput := fileAndErr.1,
      gologFlags := LstdFlags ||| Lshortfile }, fileAndErr.2)

/-- The observable outcome of InitFromArgs: either os.Exit was reached
with the given code after printing the given diagnostic to standard
error, or the function returned; both carry the final state. -/
inductive InitOutcome
  | exited (code : Nat) (diag : String) (st : LogState)
  | returned (st : LogState)
deriving DecidableEq

/-- The package state an InitOutcome leaves behind. -/
def InitOutcome.state : InitOutcome → LogState
  | .exited _ _ st => st
  | .returned st => st

/-- Embeds InitFromArgs: the switch on levelString either sets the
threshold or prints a diagnostic to standard error and exits with code
1; on the valid branches setFileName(filename) runs and its returned
error is discarded. -/
def InitFromArgs (fs : String → Bool) (levelString filename : String)
    (st : LogState) : InitOutcome :=
  match levelString with
  | "DEBUG" =>
      InitOutcome.returned (setFileName fs filename { st with level := LevelDebug }).1
  | "INFO" =>
      InitOutcome.returned (setFileName fs filename { st with level := LevelInfo }).1
  | "WARNING" =>
      InitOutcome.returned (setFileName fs filename { st with level := LevelWarning }).1
  | "ERROR" =>
      InitOutcome.returned (setFileName fs filename { st with level := LevelError }).1
  | _ => InitOutcome.exited 1 "log-level can only be DEBUG, INFO, WARNING, ERROR" st

/-- Embeds InitLevelAndFile: an in-range l is stored in level and
setFileName(p) decides the result; an out-of-range l returns the
wrong-level-number error before anything is touched. -/
def InitLevelAndFile (fs : String → Bool) (l : Int) (p : String) (st : LogState) :
    LogState × Option String :=
  if l ≤ LevelError ∧ LevelDebug ≤ l then
    setFileName fs p { st with level := l }
  else
    (st, some "wrong level number")

/-- Embeds outputf: when l passes the gate (l >= level), golog.Printf
runs on fmt.Sprint(levelPrefix[l], format) — the tag concatenated to
the format string — producing a body on the logger's current output;
below the gate nothing happens at all. -/
def outputf (st : LogState) (l : Int) (format : String) (v : List GoVal) :
    Option (Destination × String) :=
  if st.level ≤ l then some (st.gologOutput, sprintf ( levelPrefix l ++ format) v)
  else none

/-- Embeds output: when l passes the gate, golog.Print runs on
levelPrefix[l] and fmt.Sprint(v...), two strings concatenated without a
separator; below the gate nothing happens at all. -/
def output (st : LogState) (l : Int) (v : List GoVal) :
    Option (Destination × String) :=
  if st.level ≤ l then some (st.gologOutput, levelPrefix l ++ sprint v)
  else none

/-- Fatalf writes at LevelError, then os.Exit(1). -/
def Fatalf (st : LogState) (format : String) (v : List GoVal) :
    Option (Destination × String) × Nat :=
  (outputf st LevelError format v, 1)

/-- Fatal writes at LevelError, then os.Exit(1). -/
def Fatal (st : LogState) (v : List GoVal) :
    Option (Destination × String) × Nat :=
  (output st LevelError v, 1)

/-- Errorf writes at LevelError. -/
def Errorf (st : LogState) (format : String) (v : List GoVal) :
    Option (Destination × String) :=
  outputf st LevelError format v

/-- Error writes at LevelError. -/
def Error (st : LogState) (v : List GoVal) : Option (Destination × String) :=
  output st LevelError v

/-- Warningf writes at LevelWarning. -/
def Warningf (st : LogState) (format : String) (v : List GoVal) :
    Option (Destination × String) :=
  outputf st LevelWarning format v

/-- Warning writes at LevelWarning. -/
def Warning (st : LogState) (v : List GoVal) : Option (Destination × String) :=
  output st LevelWarning v

/-- Infof writes at LevelInfo. -/
def Infof (st : LogState) (format : String) (v : List GoVal) :
    Option (Destination × String) :=
  outputf st LevelInfo format v

/-- Info writes at LevelInfo. -/
def Info (st : LogState) (v : List GoVal) : Option (Destination × String) :=
  output st LevelInfo v

/-- Debugf writes at LevelDebug. -/
def Debugf (st : LogState) (format : String) (v : List GoVal) :
    Option (Destination × String) :=
  outputf st LevelDebug format v

/-- Debug writes at LevelDebug. -/
def Debug (st : LogState) (v : List GoVal) : Option (Destination × String) :=
  output st LevelDebug v

/-- The full emitted line: the golog header (date, time, short file and
line number, governed by the flags) followed by the message body. -/
def gologLine (header body : String) : String := header ++ body

/-- The invariant that the threshold names one of the four severities. -/
abbrev levelInv (st : LogState) : Prop :=
  LevelDebug ≤ st.level ∧ st.level ≤ LevelError

/-- setFileName never touches the threshold. -/
lemma setFileName_level (fs : String → Bool) (n : String) (st : LogState) :
    (setFileName fs n st).1.level = st.level := by
  simp [setFileName]

/-- A non-empty string has positive length. -/
lemma length_pos_of_ne (s : String) (h : s ≠ "") : 0 < s.length := by
  rcases s with ⟨data⟩
  cases data with
  | nil => exact absurd (by decide) h
  | cons c cs => simp [String.length]

/-- sprintfAux passes a percent-free chunk of the format through
unchanged. -/
lemma sprintfAux_append (p rest : List Char) (vs : List GoVal)
    (hp : ∀ c ∈ p, c ≠ '%') :
    sprintfAux (p ++ rest) vs = p ++ sprintfAux rest vs := by
  induction p with
  | nil => simp
  | cons c cs ih =>
      have hc : c ≠ '%' := hp c (List.mem_cons_self c cs)
      have ihh := ih fun d hd => hp d (List.mem_cons_of_mem c hd)
      rw [List.cons_append, sprintfAux.eq_def]
      simp [hc, ihh]

/-- sprintf passes a percent-free leading chunk through unchanged. -/
lemma sprintf_append (p fo : String) (vs : List GoVal)
    (hp : ∀ c ∈ p.data, c ≠ '%') :
    sprintf (p ++ fo) vs = p ++ sprintf fo vs := by
  unfold sprintf
  apply String.ext
  rw [String.data_append, String.data_append, sprintfAux_append p.data fo.data vs hp]

/-- No tag in the severity table contains a percent sign. -/
lemma levelPrefix_no_percent (l : Int) : ∀ c ∈ ( levelPrefix l).data, c ≠ '%' := by
  unfold levelPrefix
  split
  · decide
  · split
    · decide
    · split
      · decide
      · split
        · decide
        · decide

/-- The Warning entry of the severity tag table. -/
lemma levelPrefix_warning : levelPrefix LevelWarning = "[WARNING] " := rfl

/-- Storing one of the four severities keeps the threshold invariant,
whatever setFileName does next. -/
lemma levelInv_setFileName_const (fs : String → Bool) (n : String) (st : LogState)
    (l : Int) (h0 : LevelDebug ≤ l) (h3 : l ≤ LevelError) :
    levelInv (setFileName fs n { st with level := l }).1 := ⟨h0, h3⟩

/-- Claim C1: a write at fixed severity S is emitted iff S is at least
the current threshold T under Debug < Info < Warning < Error, and when
S < T both the concatenation form and the formatted form return nothing
at all — no line, no state change, no error. -/
theorem c1_write_gating (st : LogState) (l : Int) (fo : String) (v : List GoVal)
    (hst : levelInv st) (hl0 : LevelDebug ≤ l) (hl3 : l ≤ LevelError) :
    ((output st l v).isSome ↔ st.level ≤ l)
    ∧ ((outputf st l fo v).isSome ↔ st.level ≤ l)
    ∧ (l < st.level → output st l v = none ∧ outputf st l fo v = none) := by
  unfold output outputf
  refine ⟨?_, ?_, fun hlt => ?_⟩
  · split <;> simp_all
  · split <;> simp_all
  · have h : ¬ st.level ≤ l := by omega
    simp [h]

/-- Witness for C1 at the default state and severity Warning. -/
theorem c1_write_gating_witness :
    ((output initialState LevelWarning [GoVal.str "m"]).isSome
        ↔ initialState.level ≤ LevelWarning)
    ∧ ((outputf initialState LevelWarning "m" [GoVal.str "m"]).isSome
        ↔ initialState.level ≤ LevelWarning)
    ∧ (LevelWarning < initialState.level →
        output initialState LevelWarning [GoVal.str "m"] = none
        ∧ outputf initialState LevelWarning "m" [GoVal.str "m"] = none) :=
  c1_write_gating initialState LevelWarning "m" [GoVal.str "m"]
    (by decide) (by decide) (by decide)

/-- Claim C2: the threshold starts as one of the four severities and
InitLevelAndFile (also on an out-of-range level, which is rejected),
InitFromArgs and setFileName all preserve membership in that set. -/
theorem c2_threshold_invariant :
    levelInv initialState
    ∧ (∀ fs l p st, levelInv st → levelInv (InitLevelAndFile fs l p st).1)
    ∧ (∀ fs ls fn st, levelInv st → levelInv (InitFromArgs fs ls fn st).state)
    ∧ (∀ fs n st, levelInv st → levelInv (setFileName fs n st).1) := by
  refine ⟨by decide, ?_, ?_, ?_⟩
  · intro fs l p st h
    unfold InitLevelAndFile
    split
    · next hc => exact ⟨hc.2, hc.1⟩
    · exact h
  · intro fs ls fn st h
    unfold InitFromArgs
    split <;> first
      | exact h
      | (apply levelInv_setFileName_const <;> decide)
  · intro fs n st h
    exact h

/-- Witness for C2: the invariant survives a rejected level 5. -/
theorem c2_threshold_invariant_witness :
    levelInv (InitLevelAndFile (fun _ => false) 5 "" initialState).1 :=
  c2_threshold_invariant.2.1 (fun _ => false) 5 "" initialState (by decide)

/-- Claim C3: an out-of-range level makes InitLevelAndFile return the
wrong-level-number error with every global unchanged, so a later write
gates exactly as before the call. -/
theorem c3_invalid_level (fs : String → Bool) (l : Int) (p : String) (st : LogState)
    (h : l < LevelDebug ∨ LevelError < l) :
    InitLevelAndFile fs l p st = (st, some "wrong level number")
    ∧ ∀ lv v, output (InitLevelAndFile fs l p st).1 lv v = output st lv v := by
  have hc : ¬ (l ≤ LevelError ∧ LevelDebug ≤ l) := by
    simp only [LevelDebug, LevelError] at h ⊢; omega
  unfold InitLevelAndFile
  rw [if_neg hc]
  exact ⟨rfl, fun lv v => rfl⟩

/-- Witness for C3 at level 5 and the empty path. -/
theorem c3_invalid_level_witness :
    InitLevelAndFile (fun _ => true) 5 "" initialState
      = (initialState, some "wrong level number")
    ∧ ∀ lv v, output (InitLevelAndFile (fun _ => true) 5 "" initialState).1 lv v
        = output initialState lv v :=
  c3_invalid_level (fun _ => true) 5 "" initialState (by decide)

/-- Claim C4: a valid level together with a non-empty path whose open
fails makes InitLevelAndFile return an error, yet the threshold becomes
l and both logFile and the golog output are rebound to the nil handle
that the failed open returned. -/
theorem c4_open_failure (fs : String → Bool) (l : Int) (p : String) (st : LogState)
    (hl0 : LevelDebug ≤ l) (hl3 : l ≤ LevelError) (hp : p ≠ "") (hfs : fs p = false) :
    ((InitLevelAndFile fs l p st).2).isSome
    ∧ (InitLevelAndFile fs l p st).1.level = l
    ∧ (InitLevelAndFile fs l p st).1.logFile = Destination.nilHandle
    ∧ (InitLevelAndFile fs l p st).1.gologOutput = Destination.nilHandle := by
  have hc : l ≤ LevelError ∧ LevelDebug ≤ l := ⟨hl3, hl0⟩
  have hlen : 0 < p.length := length_pos_of_ne p hp
  unfold InitLevelAndFile
  rw [if_pos hc]
  unfold setFileName
  simp [hlen, hfs]

/-- Witness for C4 at level Error and a missing file. -/
theorem c4_open_failure_witness :
    ((InitLevelAndFile (fun _ => false) LevelError "missing.log" initialState).2).isSome
    ∧ (InitLevelAndFile (fun _ => false) LevelError "missing.log" initialState).1.level
        = LevelError
    ∧ (InitLevelAndFile (fun _ => false) LevelError "missing.log" initialState).1.logFile
        = Destination.nilHandle
    ∧ (InitLevelAndFile (fun _ => false) LevelError "missing.log" initialState).1.gologOutput
        = Destination.nilHandle :=
  c4_open_failure (fun _ => false) LevelError "missing.log" initialState
    (by decide) (by decide) (by decide) rfl

/-- Claim C5: at every valid threshold the fatal writes emit their
message — Error is the greatest severity, so the gate passes — and the
os.Exit code is 1, unconditionally. -/
theorem c5_fatal_writes (st : LogState) (fo : String) (v : List GoVal)
    (h : levelInv st) :
    (Fatal st v).1.isSome ∧ (Fatal st v).2 = 1
    ∧ (Fatalf st fo v).1.isSome ∧ (Fatalf st fo v).2 = 1 := by
  have hgate : st.level ≤ LevelError := h.2
  unfold Fatal Fatalf output outputf
  simp [hgate]

/-- Witness for C5 at the default state. -/
theorem c5_fatal_writes_witness :
    (Fatal initialState [GoVal.str "m"]).1.isSome
    ∧ (Fatal initialState [GoVal.str "m"]).2 = 1
    ∧ (Fatalf initialState "m" [GoVal.str "m"]).1.isSome
    ∧ (Fatalf initialState "m" [GoVal.str "m"]).2 = 1 :=
  c5_fatal_writes initialState "m" [GoVal.str "m"] (by decide)

/-- Claim C6: before any init call the threshold is Info and the golog
default destination is standard error — a Debug write is suppressed
while Info, Warning and Error writes emit there. -/
theorem c6_defaults :
    initialState.level = LevelInfo
    ∧ initialState.gologOutput = Destination.stderr
    ∧ (∀ v, output initialState LevelDebug v = none)
    ∧ (∀ v, output initialState LevelInfo v
        = some (Destination.stderr, levelPrefix LevelInfo ++ sprint v))
    ∧ (∀ v, output initialState LevelWarning v
        = some (Destination.stderr, levelPrefix LevelWarning ++ sprint v))
    ∧ (∀ v, output initialState LevelError v
        = some (Destination.stderr, levelPrefix LevelError ++ sprint v)) := by
  refine ⟨rfl, rfl, fun v => ?_, fun v => ?_, fun v => ?_, fun v => ?_⟩
  · unfold output
    rw [if_neg (by decide)]
  · unfold output
    rw [if_pos (by decide)]
    rfl
  · unfold output
    rw [if_pos (by decide)]
    rfl
  · unfold output
    rw [if_pos (by decide)]
    rfl

/-- Claim C7: a level string other than the four recognized literals
makes InitFromArgs print the diagnostic to standard error and exit with
code 1, touching neither the threshold nor the destination. -/
theorem c7_bad_level_string (fs : String → Bool) (ls fn : String) (st : LogState)
    (h1 : ls ≠ "DEBUG") (h2 : ls ≠ "INFO") (h3 : ls ≠ "WARNING") (h4 : ls ≠ "ERROR") :
    InitFromArgs fs ls fn st
      = InitOutcome.exited 1 "log-level can only be DEBUG, INFO, WARNING, ERROR" st := by
  unfold InitFromArgs
  split <;> simp_all

/-- Witness for C7 at the level string BOGUS. -/
theorem c7_bad_level_string_witness :
    InitFromArgs (fun _ => true) "BOGUS" "" initialState
      = InitOutcome.exited 1 "log-level can only be DEBUG, INFO, WARNING, ERROR"
          initialState :=
  c7_bad_level_string (fun _ => true) "BOGUS" "" initialState
    (by decide) (by decide) (by decide) (by decide)

/-- Claim C8: an emitted body carries the tag of its severity from the
constant table right after the golog header; in particular Warning and
Warningf bodies begin with the [WARNING] tag. -/
theorem c8_severity_tag (st : LogState) (v : List GoVal) (fo : String)
    (hW : st.level ≤ LevelWarning) :
    Warning st v = some (st.gologOutput, "[WARNING] " ++ sprint v)
    ∧ Warningf st fo v = some (st.gologOutput, "[WARNING] " ++ sprintf fo v)
    ∧ (∀ header, gologLine header ("[WARNING] " ++ sprint v)
        = header ++ "[WARNING] " ++ sprint v)
    ∧ (∀ l, st.level ≤ l →
        output st l v = some (st.gologOutput, levelPrefix l ++ sprint v)
        ∧ outputf st l fo v = some (st.gologOutput, levelPrefix l ++ sprintf fo v)) := by
  refine ⟨?_, ?_, ?_, fun l hl => ⟨?_, ?_⟩⟩
  · unfold Warning output
    rw [if_pos hW, levelPrefix_warning]
  · unfold Warningf outputf
    rw [if_pos hW, levelPrefix_warning, sprintf_append "[WARNING] " fo v (by decide)]
  · intro header
    unfold gologLine
    rw [String.append_assoc]
  · unfold output
    rw [if_pos hl]
  · unfold outputf
    rw [if_pos hl, sprintf_append ( levelPrefix l) fo v ( levelPrefix_no_percent l)]

/-- Witness for C8 at the default state with one string operand and a
format containing a verb. -/
theorem c8_severity_tag_witness :
    Warning initialState [GoVal.str "x"]
      = some (initialState.gologOutput, "[WARNING] " ++ sprint [GoVal.str "x"])
    ∧ Warningf initialState "y%d" [GoVal.str "x"]
      = some (initialState.gologOutput, "[WARNING] " ++ sprintf "y%d" [GoVal.str "x"])
    ∧ (∀ header, gologLine header ("[WARNING] " ++ sprint [GoVal.str "x"])
        = header ++ "[WARNING] " ++ sprint [GoVal.str "x"])
    ∧ (∀ l, initialState.level ≤ l →
        output initialState l [GoVal.str "x"]
          = some (initialState.gologOutput, levelPrefix l ++ sprint [GoVal.str "x"])
        ∧ outputf initialState l "y%d" [GoVal.str "x"]
          = some (initialState.gologOutput, levelPrefix l ++ sprintf "y%d" [GoVal.str "x"])) :=
  c8_severity_tag initialState [GoVal.str "x"] "y%d" (by decide)

/-- Claim C9: a valid level with the empty path leaves the logFile
variable untouched — still standard error — while the date, time and
short-file flags are reapplied, and no error is returned. -/
theorem c9_empty_path (fs : String → Bool) (l : Int) (st : LogState)
    (hl0 : LevelDebug ≤ l) (hl3 : l ≤ LevelError)
    (hst : st.logFile = Destination.stderr) :
    (InitLevelAndFile fs l "" st).1.logFile = st.logFile
    ∧ (InitLevelAndFile fs l "" st).1.logFile = Destination.stderr
    ∧ (InitLevelAndFile fs l "" st).1.gologOutput = Destination.stderr
    ∧ (InitLevelAndFile fs l "" st).1.gologFlags = (LstdFlags ||| Lshortfile)
    ∧ (InitLevelAndFile fs l "" st).2 = none
    ∧ (InitLevelAndFile fs l "" st).1.level = l := by
  have hc : l ≤ LevelError ∧ LevelDebug ≤ l := ⟨hl3, hl0⟩
  unfold InitLevelAndFile
  rw [if_pos hc]
  unfold setFileName
  simp [String.length_empty, hst]

/-- Witness for C9 at level Error from the default state. -/
theorem c9_empty_path_witness :
    (InitLevelAndFile (fun _ => true) LevelError "" initialState).1.logFile
        = initialState.logFile
    ∧ (InitLevelAndFile (fun _ => true) LevelError "" initialState).1.logFile
        = Destination.stderr
    ∧ (InitLevelAndFile (fun _ => true) LevelError "" initialState).1.gologOutput
        = Destination.stderr
    ∧ (InitLevelAndFile (fun _ => true) LevelError "" initialState).1.gologFlags
        = (LstdFlags ||| Lshortfile)
    ∧ (InitLevelAndFile (fun _ => true) LevelError "" initialState).2 = none
    ∧ (InitLevelAndFile (fun _ => true) LevelError "" initialState).1.level
        = LevelError :=
  c9_empty_path (fun _ => true) LevelError initialState (by decide) (by decide) rfl

/-- A failed open on a non-empty path rebinds both the logFile variable
and the golog output to the nil handle and reports the open error. -/
lemma setFileName_fail (fs : String → Bool) (n : String) (st : LogState)
    (hn : n ≠ "") (hfs : fs n = false) :
    setFileName fs n st
      = ({ st with
            logFile := Destination.nilHandle,
            gologOutput := Destination.nilHandle,
            gologFlags := LstdFlags ||| Lshortfile },
         some ("open " ++ n ++ ": no such file or directory")) := by
  have hlen : 0 < n.length := length_pos_of_ne n hn
  unfold setFileName
  simp [hlen, hfs]

/-- Claim C10: with a recognized level string and a path whose open
fails, InitFromArgs neither exits nor prints anything although the
destination-binding step did report an error — that error is discarded
— and the destination is still rebound to the nil handle. -/
theorem c10_discarded_open_error (fs : String → Bool) (ls fn : String) (st : LogState)
    (hls : ls = "DEBUG" ∨ ls = "INFO" ∨ ls = "WARNING" ∨ ls = "ERROR")
    (hfn : fn ≠ "") (hfs : fs fn = false) :
    (∃ st2, InitFromArgs fs ls fn st = InitOutcome.returned st2
      ∧ st2.logFile = Destination.nilHandle
      ∧ st2.gologOutput = Destination.nilHandle)
    ∧ ∀ st1, ((setFileName fs fn st1).2).isSome := by
  have key : ∀ st1 : LogState,
      (setFileName fs fn st1).1.logFile = Destination.nilHandle
      ∧ (setFileName fs fn st1).1.gologOutput = Destination.nilHandle := by
    intro st1
    rw [setFileName_fail fs fn st1 hfn hfs]
    exact ⟨rfl, rfl⟩
  constructor
  · rcases hls with h | h | h | h <;> subst h <;>
      exact ⟨_, rfl, (key _).1, (key _).2⟩
  · intro st1
    rw [setFileName_fail fs fn st1 hfn hfs]
    rfl

/-- Witness for C10: a valid INFO init with a missing log file. -/
theorem c10_discarded_open_error_witness :
    (∃ st2, InitFromArgs (fun _ => false) "INFO" "missing.log" initialState
        = InitOutcome.returned st2
      ∧ st2.logFile = Destination.nilHandle
      ∧ st2.gologOutput = Destination.nilHandle)
    ∧ ∀ st1, ((setFileName (fun _ => false) "missing.log" st1).2).isSome :=
  c10_discarded_open_error (fun _ => false) "INFO" "missing.log" initialState
    (by decide) (by decide) rfl

end Lvlog
